import Mathlib

/-!
Verification development for the "getting to philosophy battery test" script
(`getting-to-philosophy-battery-test.py`).  The script repeatedly follows the
first valid hyperlink of a Wikipedia article and records battery telemetry.

The embedding below models:
  * the Python string primitives the script uses (`startswith`, `in`,
    `str.count`, `urllib.parse.urljoin` for the href shapes the script
    produces),
  * the link extractor (`remove_first_parenthetical_links`,
    `get_first_valid_link`, `get_first_page_link`, `is_link_valid`),
    over article content rendered as a flat sequence of text/link tokens
    (each anchor carries its visible text, href and class list, matching
    the `string.parent.name == 'a'` shape the code relies on),
  * the traversal engine (`run_test`), with the unbounded `while True`
    loop made total by an explicit fuel parameter, and
  * the telemetry logger (`BatteryLog.log`, `BatteryLog.power_use`), with
    the psutil / sysfs sensors modelled as optional readings and Python
    exceptions modelled with `Except`.
-/

namespace GettingToPhilosophy

/-- Model of Python `s.startswith(p)`: byte-for-byte prefix test, embedded as a
character-list prefix test on the underlying `String.data`. -/
def py_startswith (s p : String) : Bool :=
  p.data.isPrefixOf s.data

/-- Character-list substring occurrence test used to model Python `needle in hay`. -/
def sublistIn (needle : List Char) : List Char → Bool
  | [] => needle.isEmpty
  | c :: rest => needle.isPrefixOf (c :: rest) || sublistIn needle rest

/-- Model of Python `needle in hay` for strings (substring containment). -/
def py_in (needle hay : String) : Bool :=
  sublistIn needle.data hay.data

/-- Model of Python `s.count(c)` for a single character, as an `Int` so the
parenthetical-depth arithmetic can go negative exactly as Python ints do. -/
def countChar (c : Char) (s : String) : Int :=
  ((s.data.filter (fun d => d = c)).length : Int)

/-- Everything of a string before its first `#`, as a list of characters. -/
def upToHash (s : String) : List Char :=
  s.data.takeWhile (fun c => c ≠ '#')

/-- Everything of a string before its first `:`, as a list of characters
(the scheme of an absolute URL such as `https://...`). -/
def upToColon (s : String) : List Char :=
  s.data.takeWhile (fun c => c ≠ ':')

/-- Model of `urllib.parse.urljoin(base, url)` restricted to the shapes this
script feeds it: `base` an absolute `http(s)://host/...` URL and `url` starting
with `/` or `#` (with a nonempty remainder).  A protocol-relative `//host/path`
keeps only the base's scheme; a rooted `/path` keeps scheme and authority; a
fragment `#frag` replaces the base's fragment. -/
def urljoin (base url : String) : String :=
  if py_startswith url "//" then
    String.mk (upToColon base) ++ ":" ++ url
  else if py_startswith url "/" then
    let sch := upToColon base
    let afterScheme := base.data.drop (sch.length + 3)
    String.mk (sch ++ (':' :: '/' :: '/' :: afterScheme.takeWhile (fun c => c ≠ '/'))) ++ url
  else if py_startswith url "#" then
    String.mk (upToHash base) ++ url
  else
    url

/-- `EN_WIKI` constant of the script: the canonical article-namespace prefix. -/
def EN_WIKI : String := "https://en.wikipedia.org/wiki"

/-- `PHILOSOPHY` constant of the script: the traversal target page. -/
def PHILOSOPHY : String := EN_WIKI ++ "/Philosophy"

/-- `WP_NAMESPACES` constant of the script: the excluded non-article namespaces. -/
def WP_NAMESPACES : List String :=
  [ "User", "User_talk", "Wikipedia", "Wikipedia_talk", "File", "File_talk",
    "MediaWiki", "MediaWiki_talk", "Template", "Template_talk", "Help",
    "Help_talk", "Category", "Category_talk", "Portal", "Portal_talk",
    "Draft", "Draft_talk", "TimedText", "TimedText_talk", "Module",
    "Module_talk", "Gadget", "Gadget_talk", "Gadget_definition",
    "Gadget_definition_talk" ]

/-- Model of `NS_REGEX.match(link_href)` being truthy.  The regex is
`^EN_WIKI/(ns1|ns2|...):` anchored at the start, so a match means the href
starts with `EN_WIKI ++ "/" ++ ns ++ ":"` for one of the namespaces.  (The
unescaped dots of `EN_WIKI` are regex wildcards, but `is_link_valid` only
reaches this test after `link_href.startswith(EN_WIKI)` has already held
literally, so on those inputs wildcard and literal matching coincide.) -/
def ns_match (link_href : String) : Bool :=
  WP_NAMESPACES.any (fun ns => py_startswith link_href (EN_WIKI ++ "/" ++ ns ++ ":"))

/-- Model of `is_link_valid(link_href, page)`: reject hrefs outside the
article-namespace prefix, citation-note anchors (plain substring test), and
excluded namespaces; accept everything else.  The `page` argument is unused by
the source function as well. -/
def is_link_valid (link_href page : String) : Bool :=
  if ¬ py_startswith link_href EN_WIKI then false
  else if py_in "cite_note" link_href then false
  else if ns_match link_href then false
  else true

/-- A token of rendered article content: a text run, or a hyperlink carrying
its visible text, its `href` attribute (absent when the anchor has none) and
its class list.  This is the flat text-or-link token sequence produced by
`soup.findAll(string=True)`, where each anchor contributes the one string node
whose parent is the `a` element. -/
inductive Token where
  | text (str : String)
  | link (str : String) (href : Option String) (classes : List String)
deriving DecidableEq, Repr

/-- Visible text of a token (the `string.text` of the node). -/
def Token.str : Token → String
  | .text s => s
  | .link s _ _ => s

/-- Whether the token's string node has an anchor parent
(`string.parent.name == 'a'`). -/
def Token.isLink : Token → Bool
  | .text _ => false
  | .link _ _ _ => true

/-- One pass of `remove_first_parenthetical_links` starting from depth `depth`
and removed-a-link flag `done` (the source's `within_parens` and
`first_parens_done` locals).  Per string node, in source order: extract the
node's anchor when the depth is nonzero and the parent is an anchor; subtract
the `)` count and return early when the depth reaches zero after a link was
removed; add the `(` count.  An early return leaves the remaining tokens in
the soup untouched. -/
def rfpl_go : Int → Bool → List Token → List Token
  | _, _, [] => []
  | depth, done, t :: rest =>
    let removed : Bool := decide (depth ≠ 0) && t.isLink
    let done2 := done || removed
    let keep : List Token := if removed then [] else [t]
    let closes : Int := countChar ')' t.str
    let depth2 : Int := depth - closes
    if closes ≠ 0 ∧ depth2 = 0 ∧ done2 = true then keep ++ rest
    else keep ++ rfpl_go (depth2 + countChar '(' t.str) done2 rest

/-- Model of `remove_first_parenthetical_links(soup)`: the token sequence with
the links of the first parenthetical group extracted. -/
def remove_first_parenthetical_links (tokens : List Token) : List Token :=
  rfpl_go 0 false tokens

/-- Href resolution step of `get_first_valid_link`: hrefs starting with `/` or
`#` are resolved against the current page with `urljoin`; all other hrefs are
used as-is. -/
def resolve (page href : String) : String :=
  if py_startswith href "/" || py_startswith href "#" then urljoin page href else href

/-- The link scan inside `get_first_valid_link`: over the (already
parenthetical-stripped) tokens, find the first anchor that has an href, is not
a red link (`new` class), and whose resolved href passes `is_link_valid`;
return that resolved href. -/
def scanLinks (page : String) : List Token → Option String
  | [] => none
  | Token.text _ :: rest => scanLinks page rest
  | Token.link _ none _ :: rest => scanLinks page rest
  | Token.link _ (some h) classes :: rest =>
    if classes.contains "new" then scanLinks page rest
    else if is_link_valid (resolve page h) page then some (resolve page h)
    else scanLinks page rest

/-- Model of `get_first_valid_link(page, element)`: strip the first
parenthetical group's links from the element's tokens, then scan the remaining
anchors for the first valid one. -/
def get_first_valid_link (page : String) (tokens : List Token) : Option String :=
  scanLinks page (remove_first_parenthetical_links tokens)

/-- One rendered block element of the lead section: its tag (`"p"` or `"ul"`)
and its token sequence. -/
structure Block where
  tag : String
  tokens : List Token
deriving DecidableEq, Repr

/-- First non-`none` result of `get_first_valid_link` over a list of blocks
(the `for p in mw_parser_output` loop of `get_first_page_link`). -/
def firstLinkOfBlocks (page : String) : List Block → Option String
  | [] => none
  | b :: rest =>
    match get_first_valid_link page b.tokens with
    | some l => some l
    | none => firstLinkOfBlocks page rest

/-- Model of `get_first_page_link(page, driver)`: the driver returns all `p`
blocks of the lead first and all `ul` blocks second (two separate CSS-selector
queries, concatenated), and the first valid link over that concatenation is
returned. -/
def get_first_page_link (page : String) (blocks : List Block) : Option String :=
  firstLinkOfBlocks page
    (blocks.filter (fun b => b.tag = "p") ++ blocks.filter (fun b => b.tag = "ul"))

/-- Termination outcome of one traversal run, identifying which of the three
`break_loop` conditions of `run_test` fired (in the source's check order). -/
inductive Outcome where
  | ReachedTarget
  | CycleDetected
  | DeadEnd
deriving DecidableEq, Repr

/-- Insertion into the `seen` dict: Python dict assignment `seen[k] = True`
keeps the existing key position, so a repeated key does not change the
insertion-ordered key list. -/
def dictInsert (seen : List String) (k : String) : List String :=
  if k ∈ seen then seen else seen ++ [k]

/-- One seed page's `while True` loop of `run_test`, made total with a fuel
parameter (`none` means the fuel ran out before the loop broke).  `links`
abstracts `get_first_page_link` for the current page; `seen` is the
insertion-ordered key list of the `seen` dict.  Per iteration, as in the
source: a `None` link is a dead end (and is not recorded); a link already in
`seen` is a cycle; the target page ends the run; the link is recorded in
`seen` in every non-`None` case (including the terminating ones); the
reported path is the key list of `seen` at the break.  (The cycle and target
conditions are mutually exclusive from an empty initial `seen`, since the
target would have broken the loop when first recorded.) -/
def run_test_seed (links : String → Option String) : Nat → List String → String → Option (Outcome × List String)
  | 0, _, _ => none
  | fuel + 1, seen, current =>
    match links current with
    | none => some (Outcome.DeadEnd, seen)
    | some first_link =>
      let seen2 := dictInsert seen first_link
      if first_link ∈ seen then some (Outcome.CycleDetected, seen2)
      else if first_link = PHILOSOPHY then some (Outcome.ReachedTarget, seen2)
      else run_test_seed links fuel seen2 first_link

/-- Model of `run_test(pages, driver, battery)`: each seed page is traversed
independently, starting from an empty `seen` dict. -/
def run_test (links : String → Option String) (fuel : Nat) (pages : List String) : List (Option (Outcome × List String)) :=
  pages.map (fun page => run_test_seed links fuel [] page)

/-- Battery reading as returned by `psutil.sensors_battery()` when a battery
is present. -/
structure BatterySensor where
  percent : Int
  secsleft : Int
deriving DecidableEq, Repr

/-- Underlying sensors of the telemetry logger: `battery` is `none` when
`psutil.sensors_battery()` returns `None` (no battery present);
`voltage_now` / `current_now` are the sysfs file contents, `none` when the
file does not exist.  `cpu` is `psutil.cpu_percent()`, which always returns
a number. -/
structure Sensors where
  battery : Option BatterySensor
  cpu : Int
  voltage_now : Option Int
  current_now : Option Int
deriving DecidableEq, Repr

/-- The `track_watts` flag computed in `BatteryLog.__init__`: true exactly
when both sysfs files exist. -/
def init_track_watts (s : Sensors) : Bool :=
  s.voltage_now.isSome && s.current_now.isSome

/-- Model of `BatteryLog.power_use`: the fixed placeholder `"0W"` when watts
are not tracked; otherwise the two sysfs files are read (a vanished file
raises, modelled as `Except.error`) and the measured watts are rendered.
(The quotient is a Python float in the source; the exact rendering is
immaterial here and modelled over `ℚ`.) -/
def power_use (track_watts : Bool) (s : Sensors) : Except String String :=
  if !track_watts then Except.ok "0W"
  else
    match s.voltage_now, s.current_now with
    | some v, some a => Except.ok (toString ((v * a : ℚ) / 1000000 / 1000000) ++ "W")
    | _, _ => Except.error "FileNotFoundError"

/-- Model of `BatteryLog.log(current_page)`: compute the watts string (its
errors propagate), then build the CSV row.  When no battery is present,
`psutil.sensors_battery()` returned `None` and the `battery.percent` access
raises `AttributeError` — there is no placeholder path for the battery
fields. -/
def BatteryLog.log (track_watts : Bool) (timestamp : String) (s : Sensors) (current_page : String) : Except String (List String) :=
  match power_use track_watts s with
  | Except.error e => Except.error e
  | Except.ok watts =>
    match s.battery with
    | none => Except.error "AttributeError"
    | some b =>
      Except.ok [timestamp, toString s.cpu, toString b.percent,
                 toString b.secsleft, current_page, watts]

/-- Modelled from the spec: "Scan the block elements in document order
(paragraphs, then list items, in whichever order they appear in content);
within each block, scan inline text and hyperlink elements left to right" and
return "the first eligible link in document order".  The per-link eligibility
rules (href present, not a red link, resolved target valid) coincide with the
code's; the distinguishing aspect is that the blocks are visited in the order
they appear in the content. -/
def first_valid_link_spec (page : String) : List Block → Option String
  | [] => none
  | b :: rest =>
    match scanLinks page b.tokens with
    | some l => some l
    | none => first_valid_link_spec page rest

/-- A token has no parentheses in its text. -/
def parenFree (t : Token) : Prop :=
  countChar '(' t.str = 0 ∧ countChar ')' t.str = 0

instance (t : Token) : Decidable (parenFree t) := by
  unfold parenFree; infer_instance

/-- Concrete link chain `A → B → C → Philosophy` used to exercise `run_test`. -/
def exLinks1 : String → Option String := fun s =>
  if s = "A" then some "B"
  else if s = "B" then some "C"
  else if s = "C" then some PHILOSOPHY
  else none

/-- Concrete link chain `A → B → C → B` (a cycle) used to exercise `run_test`. -/
def exLinks2 : String → Option String := fun s =>
  if s = "A" then some "B"
  else if s = "B" then some "C"
  else if s = "C" then some "B"
  else none

/-- Concrete link map with no links at all (every extraction dead-ends). -/
def exLinks3 : String → Option String := fun _ => none

/-- Concrete current page for the extractor examples. -/
def cexPage : String := EN_WIKI ++ "/Seed"

/-- Two paragraph blocks: the first consists of one parenthetical containing
link `LA`; the second opens with a parenthetical containing link `LB` and then
has link `LC` outside it. -/
def cexParBlocks : List Block :=
  [ ⟨"p", [Token.text "(", Token.link "LA" (some "/wiki/LA") [], Token.text ")"]⟩,
    ⟨"p", [Token.text "(", Token.link "LB" (some "/wiki/LB") [], Token.text ") ",
           Token.link "LC" (some "/wiki/LC") []]⟩ ]

/-- Parenthesis-free content where a list item with an eligible link (`B5`)
precedes a paragraph with an eligible link (`C5`) in document order. -/
def cexOrderBlocks : List Block :=
  [ ⟨"p", [Token.text "intro text"]⟩,
    ⟨"ul", [Token.link "B5" (some "/wiki/B5") []]⟩,
    ⟨"p", [Token.link "C5" (some "/wiki/C5") []]⟩ ]

/-- Parenthesis-free tokens (one of them a link) for the parenthetical-removal
witness. -/
def exInside : List Token := [Token.text "aside ", Token.link "LW" (some "/wiki/LW") []]

/-- Tokens following the first parenthetical group in the parenthetical-removal
witness, including a link inside a second parenthetical group. -/
def exRest : List Token :=
  [Token.link "LX" (some "/wiki/LX") [], Token.text " (", Token.link "LY" (some "/wiki/LY") [], Token.text ")"]

/-- One paragraph with a single relative link, for the resolution witness. -/
def exBlocks7 : List Block := [⟨"p", [Token.link "t" (some "/wiki/Target") []]⟩]

/-- Sensors with no battery and no watts sysfs files. -/
def cexSensors : Sensors := ⟨none, 7, none, none⟩

/-- Sensors with a battery present but the voltage sysfs file missing, so
watts are not tracked. -/
def exSensors9 : Sensors := ⟨some ⟨55, 3600⟩, 7, none, some 5⟩

/-! ## Helper lemmas -/

theorem data_append (s t : String) : (s ++ t).data = s.data ++ t.data := rfl

theorem isPrefixOf_self_append (l m : List Char) : l.isPrefixOf (l ++ m) = true := by
  induction l with
  | nil => simp
  | cons c cs ih => simp [List.isPrefixOf_cons₂, ih]

theorem isPrefixOf_append_cancel (p x y : List Char) :
    (p ++ y).isPrefixOf (p ++ x) = y.isPrefixOf x := by
  induction p with
  | nil => simp
  | cons c cs ih => simp [List.isPrefixOf_cons₂, ih]

theorem run_test_seed_dead (links : String → Option String) (fuel : Nat) (seen : List String)
    (cur : String) (h : links cur = none) :
    run_test_seed links (fuel + 1) seen cur = some (Outcome.DeadEnd, seen) := by
  simp [run_test_seed, h]

theorem run_test_seed_cycle (links : String → Option String) (fuel : Nat) (seen : List String)
    (cur next : String) (h : links cur = some next) (hmem : next ∈ seen) :
    run_test_seed links (fuel + 1) seen cur = some (Outcome.CycleDetected, seen) := by
  simp [run_test_seed, h, dictInsert, hmem]

theorem run_test_seed_target (links : String → Option String) (fuel : Nat) (seen : List String)
    (cur next : String) (h : links cur = some next) (hmem : next ∉ seen)
    (he : next = PHILOSOPHY) :
    run_test_seed links (fuel + 1) seen cur = some (Outcome.ReachedTarget, seen ++ [next]) := by
  subst he
  simp [run_test_seed, h, dictInsert, hmem]

theorem run_test_seed_continue (links : String → Option String) (fuel : Nat) (seen : List String)
    (cur next : String) (h : links cur = some next) (hmem : next ∉ seen)
    (hne : next ≠ PHILOSOPHY) :
    run_test_seed links (fuel + 1) seen cur = run_test_seed links fuel (seen ++ [next]) next := by
  simp [run_test_seed, h, dictInsert, hmem, hne]

theorem rfpl_go_paren_free (tokens : List Token) (h : ∀ t ∈ tokens, parenFree t) (done : Bool) :
    rfpl_go 0 done tokens = tokens := by
  induction tokens generalizing done with
  | nil => rfl
  | cons t rest ih =>
    have ht := h t (List.mem_cons_self t rest)
    have hrest : ∀ x ∈ rest, parenFree x := fun x hx => h x (List.mem_cons_of_mem t hx)
    simp [rfpl_go, ht.1, ht.2, ih hrest]

theorem rfpl_go_inside (d : Int) (hd : d ≠ 0) (inside : List Token)
    (h : ∀ t ∈ inside, parenFree t) (done : Bool) (tl : List Token) :
    rfpl_go d done (inside ++ tl)
      = inside.filter (fun t => !t.isLink) ++ rfpl_go d (done || inside.any Token.isLink) tl := by
  have hdec : (decide (d ≠ 0)) = true := decide_eq_true hd
  induction inside generalizing done with
  | nil => simp
  | cons t rest ih =>
    have ht := h t (List.mem_cons_self t rest)
    have hrest : ∀ x ∈ rest, parenFree x := fun x hx => h x (List.mem_cons_of_mem t hx)
    cases t with
    | text s =>
      have h1 : countChar '(' s = 0 := ht.1
      have h2 : countChar ')' s = 0 := ht.2
      simp [rfpl_go, Token.isLink, Token.str, h1, h2, ih hrest, Bool.or_assoc]
    | link s href cls =>
      have h1 : countChar '(' s = 0 := ht.1
      have h2 : countChar ')' s = 0 := ht.2
      simp [rfpl_go, Token.isLink, Token.str, h1, h2, hdec, ih hrest]

/-! ## Claims -/

/-- Claim C1, as stated, is false on the code: for the concrete seed `A` with
extracted link chain `A → B → C → Philosophy`, `run_test` reaches the target
but reports the path `[B, C, Philosophy]` — the `seen` dict never receives the
seed page, so the reported path does not start with the seed, contrary to the
claimed `[A, B, C, Philosophy]`. -/
theorem c1_counterexample :
    run_test exLinks1 3 ["A"] = [some (Outcome.ReachedTarget, ["B", "C", PHILOSOPHY])] ∧
    (["B", "C", PHILOSOPHY] : List String) ≠ ["A", "B", "C", PHILOSOPHY] := by
  exact ⟨by decide, by decide⟩

/-- Claim C1 (amended): for every seed page whose extracted link chain is
`A → B → C → Philosophy` (with `B`, `C` distinct from each other and from the
target), `run_test` terminates with outcome ReachedTarget and reports the
ordered path `[B, C, Philosophy]`: the seed page itself is never recorded in
the `seen` dict, so the path starts at the first followed link and ends with
the target page. -/
theorem c1_theorem (links : String → Option String) (A B C : String) (fuel : Nat)
    (hA : links A = some B) (hB : links B = some C) (hC : links C = some PHILOSOPHY)
    (hBP : B ≠ PHILOSOPHY) (hCP : C ≠ PHILOSOPHY) (hCB : C ≠ B) :
    run_test links (fuel + 3) [A] = [some (Outcome.ReachedTarget, [B, C, PHILOSOPHY])] := by
  have hBm : B ∉ ([] : List String) := List.not_mem_nil B
  have hCm : C ∉ [B] := by simp [hCB]
  have hPm : PHILOSOPHY ∉ [B, C] := by
    intro hm
    rcases List.mem_cons.mp hm with h | hm2
    · exact hBP h.symm
    · rcases List.mem_cons.mp hm2 with h | hm3
      · exact hCP h.symm
      · exact List.not_mem_nil _ hm3
  have step1 := run_test_seed_continue links (fuel + 2) [] A B hA hBm hBP
  have step2 := run_test_seed_continue links (fuel + 1) [B] B C hB hCm hCP
  have step3 := run_test_seed_target links fuel [B, C] C PHILOSOPHY hC hPm rfl
  have e3 : fuel + 3 = (fuel + 2) + 1 := rfl
  have e2 : fuel + 2 = (fuel + 1) + 1 := rfl
  have seed : run_test_seed links (fuel + 3) [] A
      = some (Outcome.ReachedTarget, [B, C, PHILOSOPHY]) := by
    rw [e3, step1]
    simp only [List.nil_append]
    rw [e2, step2]
    simpa using step3
  simp [run_test, seed]

/-- Witness for claim C1's theorem at the concrete chain
`"A" → "B" → "C" → Philosophy`. -/
theorem c1_witness :
    exLinks1 "A" = some "B" ∧ exLinks1 "B" = some "C" ∧ exLinks1 "C" = some PHILOSOPHY ∧
    ("B" : String) ≠ PHILOSOPHY ∧ ("C" : String) ≠ PHILOSOPHY ∧ ("C" : String) ≠ "B" ∧
    run_test exLinks1 3 ["A"] = [some (Outcome.ReachedTarget, ["B", "C", PHILOSOPHY])] :=
  ⟨rfl, rfl, rfl, by decide, by decide, by decide,
   c1_theorem exLinks1 "A" "B" "C" 0 rfl rfl rfl (by decide) (by decide) (by decide)⟩

/-- Claim C2, as stated, is false on the code: for the concrete seed `A` with
extracted link chain `A → B → C → B`, `run_test` detects the cycle but reports
the path `[B, C]` — the seed is never recorded, and re-inserting the
terminating page `B` into the `seen` dict leaves the key list unchanged, so
the repeated page does not appear twice, contrary to the claimed
`[A, B, C, B]`. -/
theorem c2_counterexample :
    run_test exLinks2 3 ["A"] = [some (Outcome.CycleDetected, ["B", "C"])] ∧
    (["B", "C"] : List String) ≠ ["A", "B", "C", "B"] := by
  exact ⟨by decide, by decide⟩

/-- Claim C2 (amended): for every seed page whose extracted link chain is
`A → B → C → B` (with `B`, `C` distinct from each other and from the target),
`run_test` terminates with outcome CycleDetected; the already-seen check is
evaluated before the terminating page is recorded, and the terminating page is
then re-assigned in the `seen` dict, but since it is already a key the
insertion-ordered key list — the reported path — stays `[B, C]`: the cycle's
closing edge is not visible and the seed is absent. -/
theorem c2_theorem (links : String → Option String) (A B C : String) (fuel : Nat)
    (hA : links A = some B) (hB : links B = some C) (hC : links C = some B)
    (hBP : B ≠ PHILOSOPHY) (hCP : C ≠ PHILOSOPHY) (hCB : C ≠ B) :
    run_test links (fuel + 3) [A] = [some (Outcome.CycleDetected, [B, C])] := by
  have hBm : B ∉ ([] : List String) := List.not_mem_nil B
  have hCm : C ∉ [B] := by simp [hCB]
  have hBmem : B ∈ ([B, C] : List String) := List.mem_cons_self B [C]
  have step1 := run_test_seed_continue links (fuel + 2) [] A B hA hBm hBP
  have step2 := run_test_seed_continue links (fuel + 1) [B] B C hB hCm hCP
  have step3 := run_test_seed_cycle links fuel [B, C] C B hC hBmem
  have e3 : fuel + 3 = (fuel + 2) + 1 := rfl
  have e2 : fuel + 2 = (fuel + 1) + 1 := rfl
  have seed : run_test_seed links (fuel + 3) [] A
      = some (Outcome.CycleDetected, [B, C]) := by
    rw [e3, step1]
    simp only [List.nil_append]
    rw [e2, step2]
    simpa using step3
  simp [run_test, seed]

/-- Witness for claim C2's theorem at the concrete chain
`"A" → "B" → "C" → "B"`. -/
theorem c2_witness :
    exLinks2 "A" = some "B" ∧ exLinks2 "B" = some "C" ∧ exLinks2 "C" = some "B" ∧
    ("B" : String) ≠ PHILOSOPHY ∧ ("C" : String) ≠ PHILOSOPHY ∧ ("C" : String) ≠ "B" ∧
    run_test exLinks2 3 ["A"] = [some (Outcome.CycleDetected, ["B", "C"])] :=
  ⟨rfl, rfl, rfl, by decide, by decide, by decide,
   c2_theorem exLinks2 "A" "B" "C" 0 rfl rfl rfl (by decide) (by decide) (by decide)⟩

/-- Claim C3, as stated, is false on the code: for a concrete seed `A` whose
first extraction yields no valid link, `run_test` terminates with outcome
DeadEnd, but the reported path is empty — a `None` link is never recorded and
the seed itself was never recorded either, so the path is `[]`, not `[A]`. -/
theorem c3_counterexample :
    run_test exLinks3 1 ["A"] = [some (Outcome.DeadEnd, [])] ∧
    (([] : List String)) ≠ ["A"] := by
  exact ⟨by decide, by decide⟩

/-- Claim C3 (amended): for every seed page `A` whose first extraction yields
no valid link (`get_first_page_link` returns `none`), `run_test` terminates
with outcome DeadEnd and an empty reported path; the absence of a valid link
is a defined terminal outcome of the total extraction function, not an error,
but the `seen` dict is still empty at the break, so the path is `[]`, not
`[A]`. -/
theorem c3_theorem (contents : String → List Block) (A : String) (fuel : Nat)
    (h : get_first_page_link A (contents A) = none) :
    run_test (fun p => get_first_page_link p (contents p)) (fuel + 1) [A]
      = [some (Outcome.DeadEnd, [])] := by
  have seed := run_test_seed_dead (fun p => get_first_page_link p (contents p)) fuel [] A h
  simp [run_test, seed]

/-- Witness for claim C3's theorem at a seed whose rendered content has no
blocks at all. -/
theorem c3_witness :
    get_first_page_link "A" [] = none ∧
    run_test (fun p => get_first_page_link p ((fun _ => ([] : List Block)) p)) 1 ["A"]
      = [some (Outcome.DeadEnd, [])] :=
  ⟨rfl, c3_theorem (fun _ => ([] : List Block)) "A" 0 rfl⟩

/-- Claim C4, as stated, is false on the code: parenthetical-depth tracking
restarts for every block element, so a link inside a *later* parenthetical
group is discarded when that group is the first one of its own block.  In the
concrete content `cexParBlocks`, the content's first balanced parenthetical
group (in block 1) contains link `LA`; the later group (in block 2) contains
the otherwise-valid link `LB`, which the claim says is eligible — yet the
extractor strips it from block 2 and returns the later link `LC` instead. -/
theorem c4_counterexample :
    get_first_page_link cexPage cexParBlocks = some (EN_WIKI ++ "/LC") ∧
    is_link_valid (resolve cexPage "/wiki/LB") cexPage = true ∧
    resolve cexPage "/wiki/LB" ≠ EN_WIKI ++ "/LC" ∧
    remove_first_parenthetical_links
        [Token.text "(", Token.link "LB" (some "/wiki/LB") [], Token.text ") ",
         Token.link "LC" (some "/wiki/LC") []]
      = [Token.text "(", Token.text ") ", Token.link "LC" (some "/wiki/LC") []] := by
  exact ⟨by decide, by decide, by decide, by decide⟩

/-- Claim C4 (amended): the guarantee holds per block element, not across the
whole content.  For every block whose token sequence opens with a balanced
parenthetical span containing at least one link — an opening text run with one
`(`, parenthesis-free tokens inside including a link, a closing text run with
one `)` — `remove_first_parenthetical_links` discards exactly the links inside
that first group and returns every later token of the block unchanged, so all
subsequent links of the block are eligible regardless of enclosing
punctuation.  (Depth tracking restarts for each block, so links inside a later
block's own first parenthetical group are still discarded there.) -/
theorem c4_theorem (s0 s1 : String) (inside rest : List Token)
    (h0o : countChar '(' s0 = 1) (h0c : countChar ')' s0 = 0)
    (h1c : countChar ')' s1 = 1) (h1o : countChar '(' s1 = 0)
    (hin : ∀ t ∈ inside, parenFree t)
    (hlink : inside.any Token.isLink = true) :
    remove_first_parenthetical_links (Token.text s0 :: (inside ++ (Token.text s1 :: rest)))
      = Token.text s0 :: (inside.filter (fun t => !t.isLink) ++ (Token.text s1 :: rest)) := by
  have step0 : rfpl_go 0 false (Token.text s0 :: (inside ++ (Token.text s1 :: rest)))
      = Token.text s0 :: rfpl_go 1 false (inside ++ (Token.text s1 :: rest)) := by
    simp [rfpl_go, Token.isLink, Token.str, h0o, h0c]
  have step2 : rfpl_go 1 true (Token.text s1 :: rest) = Token.text s1 :: rest := by
    simp [rfpl_go, Token.isLink, Token.str, h1c, h1o]
  unfold remove_first_parenthetical_links
  rw [step0, rfpl_go_inside 1 (by norm_num) inside hin false (Token.text s1 :: rest)]
  rw [Bool.false_or, hlink, step2]

/-- Witness for claim C4's theorem at a concrete block
`( aside LW ) LX ( LY )`: the parenthetical link `LW` is discarded, the
later links `LX` and `LY` (the latter inside a second parenthetical group of
the same block) survive. -/
theorem c4_witness :
    (∀ t ∈ exInside, parenFree t) ∧ exInside.any Token.isLink = true ∧
    remove_first_parenthetical_links (Token.text "(" :: (exInside ++ (Token.text ")" :: exRest)))
      = Token.text "(" :: (exInside.filter (fun t => !t.isLink) ++ (Token.text ")" :: exRest)) :=
  ⟨by decide, by decide,
   c4_theorem "(" ")" exInside exRest (by decide) (by decide) (by decide) (by decide)
     (by decide) (by decide)⟩

theorem firstLinkOfBlocks_eq_spec (page : String) (l : List Block)
    (h : ∀ b ∈ l, ∀ t ∈ b.tokens, parenFree t) :
    firstLinkOfBlocks page l = first_valid_link_spec page l := by
  induction l with
  | nil => rfl
  | cons b rest ih =>
    have hb := h b (List.mem_cons_self b rest)
    have hrest : ∀ x ∈ rest, ∀ t ∈ x.tokens, parenFree t :=
      fun x hx => h x (List.mem_cons_of_mem b hx)
    have hb2 : get_first_valid_link page b.tokens = scanLinks page b.tokens := by
      unfold get_first_valid_link remove_first_parenthetical_links
      rw [rfpl_go_paren_free b.tokens hb false]
    simp [firstLinkOfBlocks, first_valid_link_spec, hb2, ih hrest]

/-- Claim C5, as stated, is false on the code: the driver collects all
paragraph blocks first and all list blocks second, so blocks are not scanned
in the order they appear in the content.  In the concrete parenthesis-free
content `cexOrderBlocks` — a linkless paragraph, then a list item with
eligible link `B5`, then a paragraph with eligible link `C5` — document order
gives `B5`, but `get_first_page_link` returns `C5` because both paragraphs
are scanned before the list item. -/
theorem c5_counterexample :
    (∀ b ∈ cexOrderBlocks, ∀ t ∈ b.tokens, parenFree t) ∧
    get_first_page_link cexPage cexOrderBlocks = some (EN_WIKI ++ "/C5") ∧
    first_valid_link_spec cexPage cexOrderBlocks = some (EN_WIKI ++ "/B5") ∧
    (EN_WIKI ++ "/C5" : String) ≠ EN_WIKI ++ "/B5" := by
  exact ⟨by decide, by decide, by decide, by decide⟩

/-- Claim C5 (amended): for every article content with no parenthetical text,
`get_first_page_link` returns the first eligible link of the reordered block
sequence "all paragraph blocks in document order, then all list blocks in
document order" (within each block, links are scanned left to right); it is
the document-order scan of that reordered sequence, not of the content's own
order. -/
theorem c5_theorem (page : String) (blocks : List Block)
    (h : ∀ b ∈ blocks, ∀ t ∈ b.tokens, parenFree t) :
    get_first_page_link page blocks
      = first_valid_link_spec page
          (blocks.filter (fun b => b.tag = "p") ++ blocks.filter (fun b => b.tag = "ul")) := by
  unfold get_first_page_link
  apply firstLinkOfBlocks_eq_spec
  intro b hb
  rcases List.mem_append.mp hb with h1 | h1
  · exact h b (List.mem_of_mem_filter h1)
  · exact h b (List.mem_of_mem_filter h1)

/-- Witness for claim C5's theorem at the concrete parenthesis-free content
`cexOrderBlocks`. -/
theorem c5_witness :
    (∀ b ∈ cexOrderBlocks, ∀ t ∈ b.tokens, parenFree t) ∧
    get_first_page_link cexPage cexOrderBlocks
      = first_valid_link_spec cexPage
          (cexOrderBlocks.filter (fun b => b.tag = "p")
            ++ cexOrderBlocks.filter (fun b => b.tag = "ul")) :=
  ⟨by decide, c5_theorem cexPage cexOrderBlocks (by decide)⟩

theorem py_startswith_append (p t : String) : py_startswith (p ++ t) p = true := by
  unfold py_startswith
  rw [data_append]
  exact isPrefixOf_self_append _ _

/-- Claim C6: namespace rejection matches a namespace-qualified prefix
`EN_WIKI/ns:`, not a substring.  Part one: every href of the form
`EN_WIKI/ns:rest` with `ns` an enumerated namespace is invalid.  Part two: an
href `EN_WIKI/title` whose title does not start with any `ns:` (even if a
namespace word occurs inside it) is not rejected by the namespace rule —
validity is true whenever the citation rule also passes. -/
theorem c6_theorem :
    (∀ ns ∈ WP_NAMESPACES, ∀ rest page : String,
        is_link_valid (EN_WIKI ++ "/" ++ ns ++ ":" ++ rest) page = false) ∧
    (∀ title page : String,
        (∀ ns ∈ WP_NAMESPACES, py_startswith title (ns ++ ":") = false) →
        py_in "cite_note" (EN_WIKI ++ "/" ++ title) = false →
        is_link_valid (EN_WIKI ++ "/" ++ title) page = true) := by
  constructor
  · intro ns hns rest page
    have hpre : py_startswith (EN_WIKI ++ "/" ++ ns ++ ":" ++ rest) EN_WIKI = true := by
      rw [String.append_assoc EN_WIKI "/" ns, String.append_assoc EN_WIKI,
          String.append_assoc EN_WIKI]
      exact py_startswith_append EN_WIKI _
    have hmatch : ns_match (EN_WIKI ++ "/" ++ ns ++ ":" ++ rest) = true := by
      unfold ns_match
      rw [List.any_eq_true]
      exact ⟨ns, hns, py_startswith_append (EN_WIKI ++ "/" ++ ns ++ ":") rest⟩
    unfold is_link_valid
    cases hc : py_in "cite_note" (EN_WIKI ++ "/" ++ ns ++ ":" ++ rest) <;>
      simp [hpre, hc, hmatch]
  · intro title page hns hcite
    have hpre : py_startswith (EN_WIKI ++ "/" ++ title) EN_WIKI = true := by
      rw [String.append_assoc EN_WIKI "/" title]
      exact py_startswith_append EN_WIKI _
    have hmatch : ns_match (EN_WIKI ++ "/" ++ title) = false := by
      unfold ns_match
      rw [List.any_eq_false]
      intro ns hnsm
      have hsw := hns ns hnsm
      unfold py_startswith at hsw ⊢
      rw [data_append] at hsw
      simp only [data_append, List.append_assoc]
      rw [isPrefixOf_append_cancel]
      simp [hsw]
    unfold is_link_valid
    simp [hpre, hcite, hmatch]

/-- Witness for claim C6's theorem: `EN_WIKI/Help:Contents` is invalid while
`EN_WIKI/Helping_Hand` — whose title contains the namespace word `Help`
without the qualifying colon — is valid. -/
theorem c6_witness :
    is_link_valid (EN_WIKI ++ "/" ++ "Help" ++ ":" ++ "Contents") cexPage = false ∧
    is_link_valid (EN_WIKI ++ "/" ++ "Helping_Hand") cexPage = true :=
  ⟨c6_theorem.1 "Help" (by decide) "Contents" cexPage,
   c6_theorem.2 "Helping_Hand" cexPage (by decide) (by decide)⟩

theorem valid_startswith (r page : String) (h : is_link_valid r page = true) :
    py_startswith r EN_WIKI = true := by
  by_cases hs : py_startswith r EN_WIKI = true
  · exact hs
  · unfold is_link_valid at h
    rw [if_pos hs] at h
    exact absurd h (by simp)

theorem scanLinks_some (page : String) (tokens : List Token) (r : String)
    (h : scanLinks page tokens = some r) :
    ∃ href, r = resolve page href ∧ is_link_valid r page = true := by
  induction tokens with
  | nil => simp [scanLinks] at h
  | cons t rest ih =>
    cases t with
    | text s =>
      rw [scanLinks] at h
      exact ih h
    | link s href cls =>
      cases href with
      | none =>
        rw [scanLinks] at h
        exact ih h
      | some hr =>
        rw [scanLinks] at h
        by_cases hnew : cls.contains "new" = true
        · rw [if_pos hnew] at h
          exact ih h
        · rw [if_neg hnew] at h
          by_cases hv : is_link_valid (resolve page hr) page = true
          · rw [if_pos hv] at h
            have he := Option.some.inj h
            exact ⟨hr, he.symm, he ▸ hv⟩
          · rw [if_neg hv] at h
            exact ih h

theorem firstLinkOfBlocks_some (page : String) (l : List Block) (r : String)
    (h : firstLinkOfBlocks page l = some r) :
    ∃ href, r = resolve page href ∧ is_link_valid r page = true := by
  induction l with
  | nil => simp [firstLinkOfBlocks] at h
  | cons b rest ih =>
    rw [firstLinkOfBlocks] at h
    cases hb : get_first_valid_link page b.tokens with
    | none =>
      rw [hb] at h
      exact ih h
    | some l0 =>
      rw [hb] at h
      have he : l0 = r := Option.some.inj h
      subst he
      have hb2 : scanLinks page (remove_first_parenthetical_links b.tokens) = some l0 := hb
      exact scanLinks_some page (remove_first_parenthetical_links b.tokens) l0 hb2

/-- Claim C7: every candidate href starting with `/` or `#` is resolved
against the current page before validation, and whatever
`get_first_page_link` returns is such a resolved target that passed
`is_link_valid` — in particular it lexically starts with the canonical
article-namespace prefix `EN_WIKI`, so links resolving to external sites are
never returned. -/
theorem c7_theorem (page : String) (blocks : List Block) (r : String)
    (h : get_first_page_link page blocks = some r) :
    py_startswith r EN_WIKI = true ∧
    ∃ href, r = resolve page href ∧ is_link_valid r page = true := by
  have h2 : firstLinkOfBlocks page
      (blocks.filter (fun b => b.tag = "p") ++ blocks.filter (fun b => b.tag = "ul"))
      = some r := h
  rcases firstLinkOfBlocks_some page _ r h2 with ⟨href, hre, hv⟩
  exact ⟨valid_startswith r page hv, href, hre, hv⟩

/-- Witness for claim C7's theorem: a relative href `/wiki/Target` on the page
`cexPage` resolves to the absolute `EN_WIKI/Target`, which is returned. -/
theorem c7_witness :
    get_first_page_link cexPage exBlocks7 = some (EN_WIKI ++ "/Target") ∧
    (py_startswith (EN_WIKI ++ "/Target") EN_WIKI = true ∧
     ∃ href, EN_WIKI ++ "/Target" = resolve cexPage href ∧
       is_link_valid (EN_WIKI ++ "/Target") cexPage = true) :=
  ⟨by decide, c7_theorem cexPage exBlocks7 (EN_WIKI ++ "/Target") (by decide)⟩

/-- Claim C8 is right about the intent but the code lacks the check: a
same-page anchor `#History` on page `EN_WIKI/Causality` resolves to the
current page's own fragment, slips past the citation and namespace rules, and
`is_link_valid` accepts it — `get_first_valid_link` returns it.  The code
dropped the defensive same-page-anchor rejection the claim (and §9 of the
design) calls for. -/
theorem c8_theorem :
    resolve (EN_WIKI ++ "/Causality") "#History" = EN_WIKI ++ "/Causality#History" ∧
    is_link_valid (EN_WIKI ++ "/Causality#History") (EN_WIKI ++ "/Causality") = true ∧
    get_first_valid_link (EN_WIKI ++ "/Causality")
        [Token.link "history" (some "#History") []]
      = some (EN_WIKI ++ "/Causality#History") := by
  exact ⟨by decide, by decide, by decide⟩

/-- Claim C9, as stated, is false on the code: with no battery present
(`psutil.sensors_battery()` returns `None`), `BatteryLog.log` does not record
placeholders for the battery fields — the `battery.percent` access raises
`AttributeError` and the observation aborts. -/
theorem c9_counterexample :
    BatteryLog.log (init_track_watts cexSensors) "t0" cexSensors "page"
      = Except.error "AttributeError" := by
  rfl

/-- Claim C9 (amended): only the watts field degrades to a fixed placeholder.
For every sensor state whose voltage/current sysfs files are unavailable at
startup (`track_watts` is false) but whose battery is present, `BatteryLog.log`
succeeds and records the placeholder `"0W"` in the watts field, the traversal
continuing unaffected; an absent battery instead aborts the observation with
`AttributeError` (and CPU percent has no placeholder path at all). -/
theorem c9_theorem (s : Sensors) (b : BatterySensor) (ts page : String)
    (hb : s.battery = some b) (hw : init_track_watts s = false) :
    BatteryLog.log (init_track_watts s) ts s page
      = Except.ok [ts, toString s.cpu, toString b.percent, toString b.secsleft, page, "0W"] := by
  rw [hw]
  unfold BatteryLog.log power_use
  simp [hb]

/-- Witness for claim C9's theorem: battery present, voltage file missing. -/
theorem c9_witness :
    exSensors9.battery = some ⟨55, 3600⟩ ∧ init_track_watts exSensors9 = false ∧
    BatteryLog.log (init_track_watts exSensors9) "t1" exSensors9 "pageX"
      = Except.ok ["t1", toString exSensors9.cpu, toString (55 : Int),
                   toString (3600 : Int), "pageX", "0W"] :=
  ⟨rfl, rfl, c9_theorem exSensors9 ⟨55, 3600⟩ "t1" "pageX" rfl rfl⟩

/-- Claim C10: citation rejection is a plain substring test — every href
containing `cite_note` anywhere is invalid, including an article target whose
title itself contains `cite_note` without being a footnote anchor. -/
theorem c10_theorem (href page : String) (h : py_in "cite_note" href = true) :
    is_link_valid href page = false := by
  unfold is_link_valid
  by_cases hs : py_startswith href EN_WIKI = true
  · simp [hs, h]
  · simp [hs]

/-- Witness for claim C10's theorem at an article-title href that merely
contains `cite_note` without being a footnote anchor. -/
theorem c10_witness :
    py_in "cite_note" (EN_WIKI ++ "/Some_cite_note_title") = true ∧
    is_link_valid (EN_WIKI ++ "/Some_cite_note_title") cexPage = false :=
  ⟨by decide, c10_theorem (EN_WIKI ++ "/Some_cite_note_title") cexPage (by decide)⟩

end GettingToPhilosophy
